import Mathlib

/-!
Verification of the deployment-tracking core of the repository.

The definitions below are a shallow embedding of the Python sources:

* `src/src/models/deployment.py` — the data model (`Environment`,
  `DeploymentStatus`, `Version`, `Deployment`, …).  Wall-clock values
  (`datetime`) are modelled as natural numbers supplied by the caller;
  fields never read by the verified operations (`artifacts`,
  `config_changes`, `migration_scripts`, logging metadata) are omitted.
* `src/src/tools/deployment/deployment_tools.py` — the in-memory ledger
  operations (`register_deployment`, `update_deployment_status`,
  `get_deployment_history`, `get_environment_status`).  The module-level
  global `DEPLOYMENTS_DB` becomes an explicit `List Deployment` argument
  threaded through each operation; JSON serialisation of the result is
  abstracted into plain result structures / outcome inductives.
* `src/src/tools/deployment/deployment_tools_new.py` — the SQLite-backed
  variant (`create_deployment`, `update_deployment_status`); the database
  managed by `DatabaseManager` is modelled as an explicit store state.
* `src/src/tools/deployment/version_tools.py` — `compare_versions`.

Python's `sorted(key=…, reverse=True)` is a stable sort; it is embedded as
the (equally stable) insertion sort `List.insertionSort` over the relation
"greater-or-equal `deployed_at` first", which produces the identical list
for every total preorder key.  Python's float success-rate arithmetic is
modelled over `ℚ`; all concrete inputs used below are exactly
representable, so no float/rational divergence is involved.
-/

namespace DeployTrack

/-- Environment enumeration from `models/deployment.py` (`dev`/`pre`/`prod`). -/
inductive Env where
  | dev
  | pre
  | prod
deriving DecidableEq

/-- ASCII lowercasing of one character (codes 65-90 map to 97-122). -/
def asciiLowerChar (c : Char) : Char :=
  if 65 ≤ c.toNat ∧ c.toNat ≤ 90 then Char.ofNat (c.toNat + 32) else c

/-- Embedding of Python's `str.lower()`; every string the tools pass
through it is ASCII, where the two functions agree. -/
def pyLower (s : String) : String :=
  String.mk (s.data.map asciiLowerChar)

/-- Lookup of the `Environment` enum by value, as `Environment(s)` does in
Python: an exact match on the enum values, `None` (an exception in the
source, caught by the caller) otherwise. -/
def envOfString (s : String) : Option Env :=
  if s = "dev" then some Env.dev
  else if s = "pre" then some Env.pre
  else if s = "prod" then some Env.prod
  else none

/-- Deployment status enumeration from `models/deployment.py`. -/
inductive DeploymentStatus where
  | pending
  | in_progress
  | success
  | failed
  | rollback
deriving DecidableEq

/-- Lookup of the `DeploymentStatus` enum by value, as
`DeploymentStatus(s)` does in Python. -/
def statusOfString (s : String) : Option DeploymentStatus :=
  if s = "pending" then some DeploymentStatus.pending
  else if s = "in_progress" then some DeploymentStatus.in_progress
  else if s = "success" then some DeploymentStatus.success
  else if s = "failed" then some DeploymentStatus.failed
  else if s = "rollback" then some DeploymentStatus.rollback
  else none

/-- Git commit metadata attached to a version (`GitCommit` in
`models/deployment.py`); only the fields the verified operations touch. -/
structure GitCommit where
  hash : String
  author : String
  message : String
  date : Nat
deriving DecidableEq

/-- Version record (`Version` in `models/deployment.py`). -/
structure Version where
  version : String
  branch : String
  commit_hash : String
  build_number : String
  created_at : Nat
  commits : List GitCommit
  features : List String
  bug_fixes : List String
  breaking_changes : List String
deriving DecidableEq

/-- Application record (`Application` in `models/deployment.py`); only the
fields read by `create_deployment`. -/
structure Application where
  id : String
  name : String
deriving DecidableEq

/-- Deployment row (`Deployment` in `models/deployment.py`). -/
structure Deployment where
  id : String
  environment : Env
  version : Version
  status : DeploymentStatus
  deployed_by : String
  deployed_at : Nat
  started_at : Option Nat
  completed_at : Option Nat
  rollback_from : Option String
  notes : String
deriving DecidableEq

/-- Ordering relation used by the history and status queries: a row comes
first when its `deployed_at` is greater or equal, i.e. the list is sorted
by `deployed_at` descending (`sorted(key=lambda d: d.deployed_at,
reverse=True)`). -/
def laterFirst (a b : Deployment) : Prop :=
  b.deployed_at ≤ a.deployed_at

instance : DecidableRel laterFirst := fun a b =>
  inferInstanceAs (Decidable (b.deployed_at ≤ a.deployed_at))

instance : IsTotal Deployment laterFirst :=
  ⟨fun a b => (Nat.le_total a.deployed_at b.deployed_at).symm⟩

instance : IsTrans Deployment laterFirst :=
  ⟨fun _ _ _ hab hbc => Nat.le_trans hbc hab⟩

/-- Stable descending sort by `deployed_at`, the embedding of Python's
stable `sorted(deployments, key=lambda d: d.deployed_at, reverse=True)`:
ties keep their original (ledger) order. -/
def sortByDeployedAtDesc (l : List Deployment) : List Deployment :=
  List.insertionSort laterFirst l

/-- First element of a list attaining the maximal key (ties are won by the
earliest element); `none` exactly on the empty list.  This characterises
the head of the stable descending sort. -/
def firstMaxBy {α : Type} (key : α → Nat) : List α → Option α
  | [] => none
  | x :: xs =>
    match firstMaxBy key xs with
    | none => some x
    | some m => if key x < key m then some m else some x

theorem firstMaxBy_cons {α : Type} (key : α → Nat) (x : α) (xs : List α) :
    firstMaxBy key (x :: xs) =
      match firstMaxBy key xs with
      | none => some x
      | some m => if key x < key m then some m else some x := rfl

theorem head?_sortByDeployedAtDesc (l : List Deployment) :
    (sortByDeployedAtDesc l).head? = firstMaxBy (fun d => d.deployed_at) l := by
  induction l with
  | nil => rfl
  | cons x xs ih =>
    rw [firstMaxBy_cons]
    rw [show sortByDeployedAtDesc (x :: xs)
        = List.orderedInsert laterFirst x (sortByDeployedAtDesc xs) from rfl]
    cases hs : sortByDeployedAtDesc xs with
    | nil =>
      rw [hs] at ih
      simp only [List.head?] at ih
      rw [← ih]
      rfl
    | cons m rest =>
      rw [hs] at ih
      simp only [List.head?] at ih
      rw [← ih]
      by_cases hc : laterFirst x m
      · have hnlt : ¬ x.deployed_at < m.deployed_at := Nat.not_lt.mpr hc
        rw [List.orderedInsert, if_pos hc]
        simp [hnlt]
      · have hlt : x.deployed_at < m.deployed_at :=
          Nat.lt_of_not_le (fun h => hc h)
        rw [List.orderedInsert, if_neg hc]
        simp [hlt]

theorem firstMaxBy_spec {α : Type} (key : α → Nat) (l : List α) (hl : l ≠ []) :
    ∃ d pre post, firstMaxBy key l = some d ∧ l = pre ++ d :: post ∧
      (∀ e ∈ pre, key e < key d) ∧ (∀ e ∈ l, key e ≤ key d) := by
  induction l with
  | nil => exact absurd rfl hl
  | cons x xs ih =>
    cases hm : firstMaxBy key xs with
    | none =>
      have hxs : xs = [] := by
        cases xs with
        | nil => rfl
        | cons y ys =>
          rw [firstMaxBy_cons] at hm
          cases h : firstMaxBy key ys <;> rw [h] at hm <;> simp at hm
          split at hm <;> simp at hm
      subst hxs
      refine ⟨x, [], [], ?_, rfl, by simp, by simp⟩
      rfl
    | some m =>
      have hxs : xs ≠ [] := by
        intro h
        subst h
        simp [firstMaxBy] at hm
      obtain ⟨d, pre, post, hfm, hsplit, hpre, hall⟩ := ih hxs
      rw [hm] at hfm
      obtain rfl : m = d := by injection hfm
      by_cases hlt : key x < key m
      · refine ⟨m, x :: pre, post, ?_, ?_, ?_, ?_⟩
        · rw [firstMaxBy_cons, hm]; simp [hlt]
        · rw [hsplit]; rfl
        · intro e he
          rcases List.mem_cons.mp he with h | h
          · subst h; exact hlt
          · exact hpre e h
        · intro e he
          rcases List.mem_cons.mp he with h | h
          · subst h; exact Nat.le_of_lt hlt
          · exact hall e h
      · refine ⟨x, [], xs, ?_, rfl, by simp, ?_⟩
        · rw [firstMaxBy_cons, hm]; simp [hlt]
        · intro e he
          rcases List.mem_cons.mp he with h | h
          · subst h; exact Nat.le_refl _
          · exact Nat.le_trans (hall e h) (Nat.not_lt.mp hlt)

/-! ## Environment status (`get_environment_status`, deployment_tools.py 223-290)

The function filters the ledger by environment, takes the head of the
stable descending sort as the current deployment, and computes the
metrics block (lines 246-267): success count, total count, success rate
and the health label. -/

/-- Deployments of one environment:
`[d for d in DEPLOYMENTS_DB if d.environment == env]`. -/
def envDeployments (db : List Deployment) (env : Env) : List Deployment :=
  db.filter fun d => decide (d.environment = env)

/-- Current deployment of an environment: head of the ledger sorted by
`deployed_at` descending (lines 240-243 of deployment_tools.py). -/
def currentDeployment (db : List Deployment) (env : Env) : Option Deployment :=
  (sortByDeployedAtDesc (envDeployments db env)).head?

/-- Count of rows with status `success` in the environment
(line 246 of deployment_tools.py). -/
def envSuccessCount (db : List Deployment) (env : Env) : Nat :=
  ((envDeployments db env).filter fun d =>
    decide (d.status = DeploymentStatus.success)).length

/-- Count of all rows in the environment, whatever their status
(line 247 of deployment_tools.py). -/
def envTotalCount (db : List Deployment) (env : Env) : Nat :=
  (envDeployments db env).length

/-- Success rate:
`(successful / total * 100) if total > 0 else 0` (line 248); Python's
float arithmetic is modelled over the exact rationals. -/
def envSuccessRate (db : List Deployment) (env : Env) : ℚ :=
  if 0 < envTotalCount db env then
    (envSuccessCount db env : ℚ) / (envTotalCount db env : ℚ) * 100
  else 0

/-- Health label from the success rate (line 267): `healthy` if the rate
is at least 80, else `warning` if at least 60, else `critical`. -/
def envHealthStatus (db : List Deployment) (env : Env) : String :=
  if 80 ≤ envSuccessRate db env then "healthy"
  else if 60 ≤ envSuccessRate db env then "warning"
  else "critical"

/-- Rows of the environment whose status is terminal (`success`, `failed`
or `rollback`). -/
def terminalDeployments (db : List Deployment) (env : Env) : List Deployment :=
  (envDeployments db env).filter fun d =>
    decide (d.status = DeploymentStatus.success ∨
      d.status = DeploymentStatus.failed ∨ d.status = DeploymentStatus.rollback)

/-- Success rate as §4.4 of the spec words it ("denominator excludes
deployments still in a non-terminal status"): success count over the
count of terminal rows only.  Stated for comparison with
`envSuccessRate`, which is the rate the source actually computes. -/
def specSuccessRateTerminal (db : List Deployment) (env : Env) : ℚ :=
  if 0 < (terminalDeployments db env).length then
    (((terminalDeployments db env).filter fun d =>
        decide (d.status = DeploymentStatus.success)).length : ℚ)
      / ((terminalDeployments db env).length : ℚ) * 100
  else 0

/-! ## Status update (`update_deployment_status`, deployment_tools.py 100-156)

The source finds the first row with the given id, validates
`DeploymentStatus(status.lower())`, then mutates that row in place:
status, appended notes, and `completed_at := now` when the new status is
`success` or `failed`.  The JSON replies are abstracted into
`UpdateOutcome`; `ok` carries the old status and the updated row. -/

/-- Outcome of `update_deployment_status`: the three exits of the source
(deployment missing, invalid status value, successful update). -/
inductive UpdateOutcome where
  | ok (oldStatus : DeploymentStatus) (updated : Deployment)
  | notFound
  | invalidStatus
deriving DecidableEq

/-- Replacement of the first element satisfying the predicate: the Python
code mutates the object returned by `next(...)`, which occupies exactly
the first matching position of the list. -/
def updateFirst {α : Type} (p : α → Bool) (f : α → α) : List α → List α
  | [] => []
  | x :: xs => if p x then f x :: xs else x :: updateFirst p f xs

theorem updateFirst_length {α : Type} (p : α → Bool) (f : α → α) :
    ∀ l : List α, (updateFirst p f l).length = l.length := by
  intro l
  induction l with
  | nil => rfl
  | cons x xs ih =>
    by_cases h : p x
    · simp [updateFirst, h]
    · simp [updateFirst, h, ih]

/-- Row produced by an accepted status update (lines 128-134 of
deployment_tools.py): the status is replaced, the note is appended after
a newline and stripped, and `completed_at` is overwritten with the
current time exactly when the new status is `success` or `failed` —
`rollback` does not stamp it and `started_at` is never touched. -/
def applyStatusUpdate (d : Deployment) (newStatus : DeploymentStatus)
    (notes : String) (now : Nat) : Deployment :=
  { d with
    status := newStatus
    notes := (d.notes ++ "\n" ++ notes).trim
    completed_at :=
      if newStatus = DeploymentStatus.success ∨ newStatus = DeploymentStatus.failed
      then some now else d.completed_at }

/-- Embedding of `update_deployment_status` (deployment_tools.py): the
ledger is returned with the first row of the given id updated in place;
`now` stands for `datetime.now()`. -/
def update_deployment_status (db : List Deployment)
    (deployment_id status notes : String) (now : Nat) :
    List Deployment × UpdateOutcome :=
  match db.find? (fun d => d.id == deployment_id) with
  | none => (db, UpdateOutcome.notFound)
  | some d =>
    match statusOfString (pyLower status) with
    | none => (db, UpdateOutcome.invalidStatus)
    | some newStatus =>
      let updated := applyStatusUpdate d newStatus notes now
      (updateFirst (fun x => x.id == deployment_id) (fun _ => updated) db,
        UpdateOutcome.ok d.status updated)

/-! ## Registration (`register_deployment`, deployment_tools.py 29-97)

The version is looked up in the per-environment dictionary
`VERSIONS_DB` (modelled as a function from `Env` to a version list); the
deployment is appended only when the lookup succeeds. -/

/-- Outcome of `register_deployment`. -/
inductive RegisterOutcome where
  | ok (d : Deployment)
  | invalidEnvironment
  | versionNotFound
deriving DecidableEq

/-- Embedding of `register_deployment` (deployment_tools.py): parse the
environment (`Environment(environment.lower())`), look the version up in
that environment's list, and append a new `in_progress` row.  `newId`
stands for `str(uuid4())` and `now` for `datetime.now()`. -/
def register_deployment (versionsDb : Env → List Version)
    (db : List Deployment) (environment version deployed_by notes : String)
    (newId : String) (now : Nat) : List Deployment × RegisterOutcome :=
  match envOfString (pyLower environment) with
  | none => (db, RegisterOutcome.invalidEnvironment)
  | some env =>
    match (versionsDb env).find? (fun v => v.version == version) with
    | none => (db, RegisterOutcome.versionNotFound)
    | some versionObj =>
      let d : Deployment :=
        { id := newId
          environment := env
          version := versionObj
          status := DeploymentStatus.in_progress
          deployed_by := deployed_by
          deployed_at := now
          started_at := some now
          completed_at := none
          rollback_from := none
          notes := notes }
      (db ++ [d], RegisterOutcome.ok d)

/-! ## Store-backed variant (deployment_tools_new.py)

`create_deployment` (lines 24-104) validates the application, the
environment and that the version belongs to the stated application
(`get_versions_by_application(application_id)`), then inserts a `pending`
row.  `update_deployment_status` (lines 248-312) validates the status and
fetches the row, but — as its own comment states ("Aquí necesitaríamos
implementar update_deployment en DatabaseManager. Por ahora simulamos que
se actualiza") — never writes the mutated object back to the store, while
still reporting success. -/

/-- Outcome of `create_deployment` (the `ToolResult` replies abstracted
into constructors, one per exit of the source). -/
inductive CreateOutcome where
  | ok (d : Deployment)
  | appNotFound
  | invalidEnvironment
  | versionNotFound
deriving DecidableEq

/-- Embedding of `create_deployment` (deployment_tools_new.py): the store
is the deployments table of `DatabaseManager`; `versionsByApp` is
`get_versions_by_application`.  Note the environment string is parsed
without lowercasing here (`Environment(environment)`). -/
def create_deployment (apps : List Application)
    (versionsByApp : String → List Version) (store : List Deployment)
    (application_id environment version deployed_by notes : String)
    (newId : String) (now : Nat) : List Deployment × CreateOutcome :=
  match apps.find? (fun a => a.id == application_id) with
  | none => (store, CreateOutcome.appNotFound)
  | some _ =>
    match envOfString environment with
    | none => (store, CreateOutcome.invalidEnvironment)
    | some env =>
      match (versionsByApp application_id).find? (fun v => v.version == version) with
      | none => (store, CreateOutcome.versionNotFound)
      | some versionObj =>
        let d : Deployment :=
          { id := newId
            environment := env
            version := versionObj
            status := DeploymentStatus.pending
            deployed_by := deployed_by
            deployed_at := now
            started_at := none
            completed_at := none
            rollback_from := none
            notes := notes }
        (store ++ [d], CreateOutcome.ok d)

/-- Outcome of the store-backed `update_deployment_status`
(deployment_tools_new.py); `ok` records only the reported new status,
matching the data the source returns. -/
inductive StoreUpdateOutcome where
  | ok (newStatus : DeploymentStatus)
  | invalidStatus
  | notFound
deriving DecidableEq

/-- Embedding of `update_deployment_status` from deployment_tools_new.py:
the status is validated first (no lowercasing: `DeploymentStatus(status)`),
the row is fetched, a local copy is mutated (status, notes, timestamp
stamping of lines 282-287) — and then, exactly as in the source, the
store is left unmodified: `DatabaseManager` has no `update_deployment`,
and the source's comment says the write is only simulated.  The call
still reports success. -/
def update_deployment_status_store (store : List Deployment)
    (deployment_id status notes : String) (now : Nat) :
    List Deployment × StoreUpdateOutcome :=
  match statusOfString status with
  | none => (store, StoreUpdateOutcome.invalidStatus)
  | some newStatus =>
    match store.find? (fun d => d.id == deployment_id) with
    | none => (store, StoreUpdateOutcome.notFound)
    | some d =>
      let _updated : Deployment :=
        { d with
          status := newStatus
          notes := if notes ≠ "" then notes else d.notes
          started_at :=
            if newStatus = DeploymentStatus.in_progress then some now else d.started_at
          completed_at :=
            if newStatus = DeploymentStatus.success ∨ newStatus = DeploymentStatus.failed
            then some now else d.completed_at }
      (store, StoreUpdateOutcome.ok newStatus)

/-! ## Version comparison (`compare_versions`, version_tools.py 133-200)

Both versions are looked up by version string in the environment's list
(the `versions` argument is `VERSIONS_DB[env]`); the changelog holds
`list(set(to) - set(from))` for each of the three free-form lists.
Python materialises that set in arbitrary iteration order; the embedding
fixes the order to "first occurrence in the `to` list", which represents
the same set. -/

/-- Set difference of the source (`list(set(a) - set(b))`): the elements
of `a` that do not occur in `b`, without duplicates. -/
def pySetDiff (a b : List String) : List String :=
  (a.filter fun x => decide (x ∉ b)).dedup

theorem mem_pySetDiff {a b : List String} {x : String} :
    x ∈ pySetDiff a b ↔ x ∈ a ∧ x ∉ b := by
  unfold pySetDiff
  rw [List.mem_dedup, List.mem_filter]
  simp

/-- Changelog produced by `compare_versions` (the `differences` block of
the JSON reply; `commits_difference` is `len(to.commits) - len(from.commits)`
as a signed integer). -/
structure ChangeLog where
  from_version : String
  to_version : String
  features : List String
  bug_fixes : List String
  breaking_changes : List String
  commits_difference : Int
deriving DecidableEq

/-- Outcome of `compare_versions`; `notFound` names the version string
whose lookup failed, as the source's error messages do. -/
inductive CompareOutcome where
  | ok (c : ChangeLog)
  | notFound (which : String)
deriving DecidableEq

/-- Embedding of `compare_versions` (version_tools.py): look up both
versions in the environment's list, then build the set-difference
changelog. -/
def compare_versions (versions : List Version) (version1 version2 : String) :
    CompareOutcome :=
  match versions.find? (fun v => v.version == version1) with
  | none => CompareOutcome.notFound version1
  | some v1 =>
    match versions.find? (fun v => v.version == version2) with
    | none => CompareOutcome.notFound version2
    | some v2 =>
      CompareOutcome.ok
        { from_version := version1
          to_version := version2
          features := pySetDiff v2.features v1.features
          bug_fixes := pySetDiff v2.bug_fixes v1.bug_fixes
          breaking_changes := pySetDiff v2.breaking_changes v1.breaking_changes
          commits_difference := (v2.commits.length : Int) - (v1.commits.length : Int) }

/-! ## History (`get_deployment_history`, deployment_tools.py 159-220)

The ledger is copied, optionally filtered by environment, sorted by
`deployed_at` descending, and truncated to `limit` rows;
`total_deployments` is the length before truncation.  The global ledger
is only read, so the returned state equals the input state. -/

/-- Reply of `get_deployment_history` (the JSON reply's list projected to
the underlying rows). -/
structure HistoryResult where
  total_deployments : Nat
  showing : Nat
  deployments : List Deployment
deriving DecidableEq

/-- Outcome of `get_deployment_history`. -/
inductive HistoryOutcome where
  | ok (r : HistoryResult)
  | invalidEnvironment
deriving DecidableEq

/-- List of ledger rows matching an optional environment filter
(lines 174-176 of deployment_tools.py). -/
def historyFiltered (db : List Deployment) (envFilter : Option Env) :
    List Deployment :=
  match envFilter with
  | none => db
  | some e => db.filter fun d => decide (d.environment = e)

/-- Filter, sort and truncate of `get_deployment_history` for an already
parsed optional environment filter (lines 171-205). -/
def historyCore (db : List Deployment) (envFilter : Option Env) (limit : Nat) :
    HistoryResult :=
  { total_deployments := (sortByDeployedAtDesc (historyFiltered db envFilter)).length
    showing := ((sortByDeployedAtDesc (historyFiltered db envFilter)).take limit).length
    deployments := (sortByDeployedAtDesc (historyFiltered db envFilter)).take limit }

/-- Embedding of `get_deployment_history` (deployment_tools.py): parse
the optional environment filter (`Environment(environment.lower())`),
then filter, sort and truncate.  The ledger state is returned unchanged —
the source works on a copy of the global list. -/
def get_deployment_history (db : List Deployment)
    (environment : Option String) (limit : Nat) :
    List Deployment × HistoryOutcome :=
  match environment with
  | none => (db, HistoryOutcome.ok (historyCore db none limit))
  | some s =>
    match envOfString (pyLower s) with
    | none => (db, HistoryOutcome.invalidEnvironment)
    | some e => (db, HistoryOutcome.ok (historyCore db (some e) limit))

/-! ## Concrete sample data used by witnesses and counterexamples -/

/-- Sample version record with the given changelog lists. -/
def sampleVersion (ver : String) (features bug_fixes breaking_changes : List String) :
    Version :=
  { version := ver
    branch := "main"
    commit_hash := "abc123"
    build_number := "build-1"
    created_at := 0
    commits := []
    features := features
    bug_fixes := bug_fixes
    breaking_changes := breaking_changes }

/-- Sample deployment row. -/
def sampleDeployment (id : String) (env : Env) (st : DeploymentStatus)
    (deployedAt : Nat) : Deployment :=
  { id := id
    environment := env
    version := sampleVersion "1.0.0" [] [] []
    status := st
    deployed_by := "ops"
    deployed_at := deployedAt
    started_at := none
    completed_at := none
    rollback_from := none
    notes := "" }

/-- Two deployments sharing the maximal timestamp: id `a` appended first,
id `b` (the lexicographically greater identity) appended second. -/
def tieA : Deployment := sampleDeployment "a" Env.dev DeploymentStatus.success 5
def tieB : Deployment := sampleDeployment "b" Env.dev DeploymentStatus.success 5
def tieLedger : List Deployment := [tieA, tieB]

/-! ## C1 — current-state resolution -/

/-- C1 counterexample: on an exact `deployed_at` tie the resolver returns
the first-appended row (`id = "a"`), not the row with the
lexicographically greatest identity (`id = "b"`), so the claimed
tie-break rule does not hold on the code. -/
theorem C1_counterexample :
    currentDeployment tieLedger Env.dev = some tieA ∧
    tieB ∈ envDeployments tieLedger Env.dev ∧
    tieB.deployed_at = tieA.deployed_at ∧
    tieA.id = "a" ∧
    tieB.id = "b" ∧
    tieA ≠ tieB := by decide

/-- C1 (amended): for every environment with at least one appended
deployment, resolution returns a deployment with the maximal
`deployed_at`; on ties it returns the earliest-appended row among those
attaining the maximum (every strictly earlier ledger entry has a strictly
smaller timestamp).  Resolution is a pure function of the ledger, so
repeated calls return the same row. -/
theorem C1_theorem (db : List Deployment) (env : Env)
    (h : envDeployments db env ≠ []) :
    ∃ d pre post, currentDeployment db env = some d ∧
      envDeployments db env = pre ++ d :: post ∧
      (∀ e ∈ pre, e.deployed_at < d.deployed_at) ∧
      (∀ e ∈ envDeployments db env, e.deployed_at ≤ d.deployed_at) := by
  have hspec := firstMaxBy_spec (fun d => d.deployed_at) (envDeployments db env) h
  unfold currentDeployment
  rw [head?_sortByDeployedAtDesc]
  exact hspec

/-- C1 witness: the amended theorem applied to a concrete two-row ledger. -/
theorem C1_witness :
    tieLedger ≠ [] ∧
    envDeployments tieLedger Env.dev ≠ [] ∧
    (∃ d pre post, currentDeployment tieLedger Env.dev = some d ∧
      envDeployments tieLedger Env.dev = pre ++ d :: post ∧
      (∀ e ∈ pre, e.deployed_at < d.deployed_at) ∧
      (∀ e ∈ envDeployments tieLedger Env.dev, e.deployed_at ≤ d.deployed_at)) :=
  ⟨by decide, by decide, C1_theorem tieLedger Env.dev (by decide)⟩

/-! ## C3 — empty environments -/

/-- C3 counterexample: an environment with zero historical deployments is
labelled `critical` with a success rate of 0, not `unknown`. -/
theorem C3_counterexample :
    envHealthStatus [] Env.dev = "critical" ∧
    envSuccessRate [] Env.dev = 0 ∧
    envHealthStatus [] Env.dev ≠ "unknown" := by decide

/-- C3 (amended): an environment with zero historical deployments gets a
success rate of 0 and the health label `critical` — the code has no
`unknown` branch. -/
theorem C3_theorem (db : List Deployment) (env : Env)
    (h : envDeployments db env = []) :
    envSuccessRate db env = 0 ∧ envHealthStatus db env = "critical" := by
  have ht : envTotalCount db env = 0 := by rw [envTotalCount, h]; rfl
  have hrate : envSuccessRate db env = 0 := by
    rw [envSuccessRate, ht]
    norm_num
  refine ⟨hrate, ?_⟩
  rw [envHealthStatus, hrate]
  norm_num

/-- C3 witness: the amended theorem applied to the empty ledger. -/
theorem C3_witness :
    envDeployments [] Env.dev = [] ∧
    (envSuccessRate [] Env.dev = 0 ∧ envHealthStatus [] Env.dev = "critical") :=
  ⟨by decide, C3_theorem [] Env.dev (by decide)⟩

/-! ## C2 — success rate and health thresholds -/

/-- Ledger with one `success` and one `in_progress` row in `dev`. -/
def c2xDb : List Deployment :=
  [sampleDeployment "s1" Env.dev DeploymentStatus.success 1,
   sampleDeployment "p1" Env.dev DeploymentStatus.in_progress 2]

/-- Ledger with four `success` rows and one `failed` row in `dev`. -/
def c2wDb : List Deployment :=
  [sampleDeployment "w1" Env.dev DeploymentStatus.success 1,
   sampleDeployment "w2" Env.dev DeploymentStatus.success 2,
   sampleDeployment "w3" Env.dev DeploymentStatus.success 3,
   sampleDeployment "w4" Env.dev DeploymentStatus.success 4,
   sampleDeployment "w5" Env.dev DeploymentStatus.failed 5]

/-- C2 counterexample: with one `success` and one `in_progress` row the
code computes a success rate of 50 and the label `critical`, whereas the
claimed terminal-only denominator would give 100 (and hence `healthy`):
non-terminal rows are counted in the denominator. -/
theorem C2_counterexample :
    envSuccessRate c2xDb Env.dev = 50 ∧
    specSuccessRateTerminal c2xDb Env.dev = 100 ∧
    envHealthStatus c2xDb Env.dev = "critical" := by
  have hs : envSuccessCount c2xDb Env.dev = 1 := by decide
  have ht : envTotalCount c2xDb Env.dev = 2 := by decide
  have hterm : terminalDeployments c2xDb Env.dev
      = [sampleDeployment "s1" Env.dev DeploymentStatus.success 1] := by decide
  have hrate : envSuccessRate c2xDb Env.dev = 50 := by
    rw [envSuccessRate, hs, ht]
    norm_num
  refine ⟨hrate, ?_, ?_⟩
  · rw [specSuccessRateTerminal, hterm]
    norm_num
    decide
  · rw [envHealthStatus, hrate]
    norm_num

theorem envRate_le_iff (db : List Deployment) (env : Env)
    (h : 0 < envTotalCount db env) (c : ℚ) :
    c ≤ envSuccessRate db env ↔
      c * (envTotalCount db env : ℚ) ≤ 100 * (envSuccessCount db env : ℚ) := by
  have ht0 : (0 : ℚ) < (envTotalCount db env : ℚ) := by exact_mod_cast h
  rw [envSuccessRate, if_pos h, div_mul_eq_mul_div, le_div_iff₀ ht0]
  constructor
  · intro hc; nlinarith
  · intro hc; nlinarith

/-- C2 (amended): for every environment with at least one deployment, the
success rate is the count of `success` rows divided by the count of ALL
rows of that environment — pending and in-progress rows included in the
denominator — times 100, and the health label is `healthy` when the rate
is at least 80, `warning` when at least 60 and below 80, and `critical`
otherwise. -/
theorem C2_theorem (db : List Deployment) (env : Env)
    (h : 0 < envTotalCount db env) :
    envSuccessRate db env
        = (envSuccessCount db env : ℚ) * 100 / (envTotalCount db env : ℚ) ∧
    (envHealthStatus db env = "healthy" ↔
      80 * envTotalCount db env ≤ 100 * envSuccessCount db env) ∧
    (envHealthStatus db env = "warning" ↔
      60 * envTotalCount db env ≤ 100 * envSuccessCount db env ∧
      100 * envSuccessCount db env < 80 * envTotalCount db env) ∧
    (envHealthStatus db env = "critical" ↔
      100 * envSuccessCount db env < 60 * envTotalCount db env) := by
  have hrate : envSuccessRate db env
      = (envSuccessCount db env : ℚ) * 100 / (envTotalCount db env : ℚ) := by
    rw [envSuccessRate, if_pos h]
    ring
  have h80 : ((80 : ℚ) ≤ envSuccessRate db env) ↔
      80 * envTotalCount db env ≤ 100 * envSuccessCount db env := by
    rw [envRate_le_iff db env h 80]
    constructor
    · intro hq; exact_mod_cast hq
    · intro hn; exact_mod_cast hn
  have h60 : ((60 : ℚ) ≤ envSuccessRate db env) ↔
      60 * envTotalCount db env ≤ 100 * envSuccessCount db env := by
    rw [envRate_le_iff db env h 60]
    constructor
    · intro hq; exact_mod_cast hq
    · intro hn; exact_mod_cast hn
  have hmono : 60 * envTotalCount db env ≤ 80 * envTotalCount db env :=
    Nat.mul_le_mul_right _ (by norm_num)
  refine ⟨hrate, ?_, ?_, ?_⟩
  · rw [envHealthStatus]
    by_cases hA : (80 : ℚ) ≤ envSuccessRate db env
    · rw [if_pos hA]
      exact iff_of_true rfl (h80.mp hA)
    · rw [if_neg hA]
      by_cases hB : (60 : ℚ) ≤ envSuccessRate db env
      · rw [if_pos hB]
        exact iff_of_false (by decide) (fun hc => hA (h80.mpr hc))
      · rw [if_neg hB]
        exact iff_of_false (by decide) (fun hc => hA (h80.mpr hc))
  · rw [envHealthStatus]
    by_cases hA : (80 : ℚ) ≤ envSuccessRate db env
    · rw [if_pos hA]
      exact iff_of_false (by decide)
        (fun hc => Nat.not_le.mpr hc.2 (h80.mp hA))
    · rw [if_neg hA]
      by_cases hB : (60 : ℚ) ≤ envSuccessRate db env
      · rw [if_pos hB]
        exact iff_of_true rfl
          ⟨h60.mp hB, Nat.not_le.mp (fun hc => hA (h80.mpr hc))⟩
      · rw [if_neg hB]
        exact iff_of_false (by decide)
          (fun hc => hB (h60.mpr hc.1))
  · rw [envHealthStatus]
    by_cases hA : (80 : ℚ) ≤ envSuccessRate db env
    · rw [if_pos hA]
      refine iff_of_false (by decide) (fun hc => ?_)
      exact Nat.not_le.mpr hc (Nat.le_trans hmono (h80.mp hA))
    · rw [if_neg hA]
      by_cases hB : (60 : ℚ) ≤ envSuccessRate db env
      · rw [if_pos hB]
        exact iff_of_false (by decide)
          (fun hc => Nat.not_le.mpr hc (h60.mp hB))
      · rw [if_neg hB]
        exact iff_of_true rfl
          (Nat.not_le.mp (fun hc => hB (h60.mpr hc)))
  -- no further goals

/-- C2 witness: the amended theorem at a concrete five-row ledger with
four successes (rate exactly 80, the boundary: label `healthy`). -/
theorem C2_witness :
    0 < envTotalCount c2wDb Env.dev ∧
    (envSuccessRate c2wDb Env.dev
        = (envSuccessCount c2wDb Env.dev : ℚ) * 100 / (envTotalCount c2wDb Env.dev : ℚ) ∧
    (envHealthStatus c2wDb Env.dev = "healthy" ↔
      80 * envTotalCount c2wDb Env.dev ≤ 100 * envSuccessCount c2wDb Env.dev) ∧
    (envHealthStatus c2wDb Env.dev = "warning" ↔
      60 * envTotalCount c2wDb Env.dev ≤ 100 * envSuccessCount c2wDb Env.dev ∧
      100 * envSuccessCount c2wDb Env.dev < 80 * envTotalCount c2wDb Env.dev) ∧
    (envHealthStatus c2wDb Env.dev = "critical" ↔
      100 * envSuccessCount c2wDb Env.dev < 60 * envTotalCount c2wDb Env.dev)) :=
  ⟨by decide, C2_theorem c2wDb Env.dev (by decide)⟩

/-! ## C4 — rejected references leave the ledger unchanged -/

/-- Version `2.0.0`, registered (in the witness) for application `appB`
only. -/
def c4Version : Version := sampleVersion "2.0.0" [] [] []

/-- Two sample applications. -/
def c4Apps : List Application :=
  [{ id := "appA", name := "Frontend" }, { id := "appB", name := "Backend" }]

/-- Version table keyed by application: only `appB` owns a version. -/
def c4VersionsByApp : String → List Version :=
  fun id => if id = "appB" then [c4Version] else []

/-- C4: an append whose version does not exist for the stated key is
rejected and the ledger is unchanged — no partial row.  For
`register_deployment` (deployment_tools.py) the version is looked up in
the stated environment's list; for `create_deployment`
(deployment_tools_new.py) it is looked up among the stated application's
own versions, so a version belonging to a different application is
rejected the same way. -/
theorem C4_theorem (versionsDb : Env → List Version) (db : List Deployment)
    (apps : List Application) (versionsByApp : String → List Version)
    (store : List Deployment)
    (environment version deployed_by notes newId : String)
    (application_id environment2 version2 deployed_by2 notes2 newId2 : String)
    (now now2 : Nat) (env env2 : Env) (app : Application)
    (henv : envOfString (pyLower environment) = some env)
    (hver : (versionsDb env).find? (fun v => v.version == version) = none)
    (happ : apps.find? (fun a => a.id == application_id) = some app)
    (henv2 : envOfString environment2 = some env2)
    (hver2 : (versionsByApp application_id).find?
      (fun v => v.version == version2) = none) :
    register_deployment versionsDb db environment version deployed_by notes newId now
      = (db, RegisterOutcome.versionNotFound) ∧
    create_deployment apps versionsByApp store application_id environment2 version2
        deployed_by2 notes2 newId2 now2
      = (store, CreateOutcome.versionNotFound) := by
  constructor
  · simp only [register_deployment, henv, hver]
  · simp only [create_deployment, happ, henv2, hver2]

/-- C4 witness: requesting version `2.0.0` for `appA` is rejected with no
row inserted even though `2.0.0` exists — it belongs to `appB`; and a
version unknown to the stated environment is rejected by
`register_deployment` with the ledger unchanged. -/
theorem C4_witness :
    c4VersionsByApp "appB" = [c4Version] ∧
    envOfString (pyLower "DEV") = some Env.dev ∧
    (((fun _ : Env => ([] : List Version)) Env.dev).find?
      (fun v => v.version == "9.9.9") = none) ∧
    c4Apps.find? (fun a => a.id == "appA")
      = some { id := "appA", name := "Frontend" } ∧
    envOfString "dev" = some Env.dev ∧
    (c4VersionsByApp "appA").find? (fun v => v.version == "2.0.0") = none ∧
    (register_deployment (fun _ => []) [] "DEV" "9.9.9" "ops" "" "n1" 1
       = ([], RegisterOutcome.versionNotFound) ∧
     create_deployment c4Apps c4VersionsByApp [] "appA" "dev" "2.0.0"
         "ops" "" "n2" 2
       = ([], CreateOutcome.versionNotFound)) :=
  ⟨by decide, by decide, by decide, by decide, by decide, by decide,
   C4_theorem (fun _ => []) [] c4Apps c4VersionsByApp []
     "DEV" "9.9.9" "ops" "" "n1" "appA" "dev" "2.0.0" "ops" "" "n2" 1 2
     Env.dev Env.dev { id := "appA", name := "Frontend" }
     (by decide) (by decide) (by decide) (by decide) (by decide)⟩

/-! ## C5 — how a rollback is represented -/

/-- Successful deployment that is subsequently rolled back. -/
def c5dep : Deployment :=
  { sampleDeployment "d1" Env.dev DeploymentStatus.success 3 with
    completed_at := some 3 }

/-- C5 counterexample: a rollback request mutates the existing row — the
ledger still has exactly one row, whose status changed from `success` to
`rollback`, and `rollback_from` stays unset.  No new Deployment row
referencing the prior one is created, and the prior row's status is
modified, contrary to the claim. -/
theorem C5_counterexample :
    (update_deployment_status [c5dep] "d1" "rollback" "" 9).1.length = 1 ∧
    ((update_deployment_status [c5dep] "d1" "rollback" "" 9).1.head?).map
        Deployment.status = some DeploymentStatus.rollback ∧
    c5dep.status = DeploymentStatus.success ∧
    ((update_deployment_status [c5dep] "d1" "rollback" "" 9).1.head?).map
        Deployment.rollback_from = some none := by decide

/-- C5 (amended): a rollback is applied by `update_deployment_status`
mutating the existing deployment row in place: its status is overwritten
to `rollback`, the ledger length is unchanged (no new row), and
`rollback_from` is not set by the operation (the field is only stored as
given at creation). -/
theorem C5_theorem (db : List Deployment) (deployment_id notes : String)
    (now : Nat) (d : Deployment)
    (hd : db.find? (fun x => x.id == deployment_id) = some d) :
    update_deployment_status db deployment_id "rollback" notes now
      = (updateFirst (fun x => x.id == deployment_id)
           (fun _ => applyStatusUpdate d DeploymentStatus.rollback notes now) db,
         UpdateOutcome.ok d.status
           (applyStatusUpdate d DeploymentStatus.rollback notes now)) ∧
    (applyStatusUpdate d DeploymentStatus.rollback notes now).status
      = DeploymentStatus.rollback ∧
    (applyStatusUpdate d DeploymentStatus.rollback notes now).id = d.id ∧
    (applyStatusUpdate d DeploymentStatus.rollback notes now).rollback_from
      = d.rollback_from ∧
    (applyStatusUpdate d DeploymentStatus.rollback notes now).completed_at
      = d.completed_at ∧
    (update_deployment_status db deployment_id "rollback" notes now).1.length
      = db.length := by
  have hst : statusOfString (pyLower "rollback") = some DeploymentStatus.rollback := by
    decide
  have hmain : update_deployment_status db deployment_id "rollback" notes now
      = (updateFirst (fun x => x.id == deployment_id)
           (fun _ => applyStatusUpdate d DeploymentStatus.rollback notes now) db,
         UpdateOutcome.ok d.status
           (applyStatusUpdate d DeploymentStatus.rollback notes now)) := by
    simp only [update_deployment_status, hd, hst]
  refine ⟨hmain, rfl, rfl, rfl, ?_, ?_⟩
  · simp [applyStatusUpdate]
  · rw [hmain]
    exact updateFirst_length _ _ db

/-- C5 witness: the amended theorem at the concrete one-row ledger. -/
theorem C5_witness :
    ([c5dep].find? (fun x => x.id == "d1") = some c5dep) ∧
    (update_deployment_status [c5dep] "d1" "rollback" "" 9
      = (updateFirst (fun x => x.id == "d1")
           (fun _ => applyStatusUpdate c5dep DeploymentStatus.rollback "" 9) [c5dep],
         UpdateOutcome.ok c5dep.status
           (applyStatusUpdate c5dep DeploymentStatus.rollback "" 9)) ∧
    (applyStatusUpdate c5dep DeploymentStatus.rollback "" 9).status
      = DeploymentStatus.rollback ∧
    (applyStatusUpdate c5dep DeploymentStatus.rollback "" 9).id = c5dep.id ∧
    (applyStatusUpdate c5dep DeploymentStatus.rollback "" 9).rollback_from
      = c5dep.rollback_from ∧
    (applyStatusUpdate c5dep DeploymentStatus.rollback "" 9).completed_at
      = c5dep.completed_at ∧
    (update_deployment_status [c5dep] "d1" "rollback" "" 9).1.length
      = [c5dep].length) :=
  ⟨by decide, C5_theorem [c5dep] "d1" "" 9 c5dep (by decide)⟩

/-! ## C6 — persistence of status updates in the store-backed variant -/

/-- Pending deployment sitting in the store. -/
def c6dep : Deployment := sampleDeployment "dep-1" Env.dev DeploymentStatus.pending 1

/-- C6: at the failing input, the store-backed `update_deployment_status`
reports a successful update to `success`, yet the stored record is
unchanged and a subsequent read of the deployment still sees `pending` —
the write is never persisted (the source's own comment admits the update
is only simulated, and `DatabaseManager` has no `update_deployment`). -/
theorem C6_theorem :
    (update_deployment_status_store [c6dep] "dep-1" "success" "" 10).2
      = StoreUpdateOutcome.ok DeploymentStatus.success ∧
    (update_deployment_status_store [c6dep] "dep-1" "success" "" 10).1
      = [c6dep] ∧
    (((update_deployment_status_store [c6dep] "dep-1" "success" "" 10).1.find?
        (fun d => d.id == "dep-1")).map Deployment.status)
      = some DeploymentStatus.pending := by decide

/-! ## C7 — rejection of unknown status values -/

/-- Pending deployment used for the status-validation claims. -/
def c7dep : Deployment := sampleDeployment "d7" Env.dev DeploymentStatus.pending 1

/-- C7 counterexample: `"SUCCESS"` is not one of the five status strings,
yet the call is not rejected — the source lowercases the input first, so
the update is accepted and the status becomes `success`. -/
theorem C7_counterexample :
    ("SUCCESS" ∉ ["pending", "in_progress", "success", "failed", "rollback"]) ∧
    statusOfString "SUCCESS" = none ∧
    ((update_deployment_status [c7dep] "d7" "SUCCESS" "" 10).1.head?).map
        Deployment.status = some DeploymentStatus.success ∧
    (update_deployment_status [c7dep] "d7" "SUCCESS" "" 10).2
      ≠ UpdateOutcome.invalidStatus := by decide

/-- C7 (amended): a call whose status string does not name one of the
five known statuses even after lowercasing is rejected as an invalid
status, and the ledger — hence the deployment's status and every other
field — is unchanged. -/
theorem C7_theorem (db : List Deployment) (deployment_id status notes : String)
    (now : Nat) (d : Deployment)
    (hd : db.find? (fun x => x.id == deployment_id) = some d)
    (hbad : statusOfString (pyLower status) = none) :
    update_deployment_status db deployment_id status notes now
      = (db, UpdateOutcome.invalidStatus) := by
  simp only [update_deployment_status, hd, hbad]

/-- C7 witness: the amended theorem at a concrete ledger and the unknown
status string `"deployed"`. -/
theorem C7_witness :
    ([c7dep].find? (fun x => x.id == "d7") = some c7dep) ∧
    statusOfString (pyLower "deployed") = none ∧
    update_deployment_status [c7dep] "d7" "deployed" "" 10
      = ([c7dep], UpdateOutcome.invalidStatus) :=
  ⟨by decide, by decide, C7_theorem [c7dep] "d7" "deployed" "" 10 c7dep
    (by decide) (by decide)⟩

/-! ## C8 — timestamp stamping on transitions -/

/-- In-progress deployment whose `completed_at` is already set. -/
def c8dep : Deployment :=
  { sampleDeployment "d8" Env.dev DeploymentStatus.in_progress 2 with
    completed_at := some 5 }

/-- Successful deployment with no timestamps set. -/
def c8dep2 : Deployment := sampleDeployment "d9" Env.dev DeploymentStatus.success 2

/-- C8 counterexample: transitioning to `success` overwrites an
already-set `completed_at` (5 becomes 9); transitioning to the terminal
status `rollback` does not stamp `completed_at` at all; and entering
`in_progress` does not stamp an unset `started_at`. -/
theorem C8_counterexample :
    c8dep.completed_at = some 5 ∧
    ((update_deployment_status [c8dep] "d8" "success" "" 9).1.head?).map
        Deployment.completed_at = some (some 9) ∧
    c8dep2.completed_at = none ∧
    ((update_deployment_status [c8dep2] "d9" "rollback" "" 9).1.head?).map
        Deployment.completed_at = some none ∧
    c8dep2.started_at = none ∧
    ((update_deployment_status [c8dep2] "d9" "in_progress" "" 9).1.head?).map
        Deployment.started_at = some none := by decide

/-- C8 (amended): an accepted transition stamps `completed_at := now`
exactly when the new status is `success` or `failed`, overwriting any
previously set value; every other status (including the terminal
`rollback`) leaves `completed_at` unchanged, and `started_at` is never
modified by a transition. -/
theorem C8_theorem (db : List Deployment) (deployment_id status notes : String)
    (now : Nat) (d : Deployment) (st : DeploymentStatus)
    (hd : db.find? (fun x => x.id == deployment_id) = some d)
    (hst : statusOfString (pyLower status) = some st) :
    (update_deployment_status db deployment_id status notes now).2
      = UpdateOutcome.ok d.status (applyStatusUpdate d st notes now) ∧
    (applyStatusUpdate d st notes now).completed_at
      = (if st = DeploymentStatus.success ∨ st = DeploymentStatus.failed
         then some now else d.completed_at) ∧
    (applyStatusUpdate d st notes now).started_at = d.started_at := by
  refine ⟨?_, rfl, rfl⟩
  simp only [update_deployment_status, hd, hst]

/-- C8 witness: the amended theorem at the concrete row `c8dep` and the
transition to `success`. -/
theorem C8_witness :
    ([c8dep].find? (fun x => x.id == "d8") = some c8dep) ∧
    statusOfString (pyLower "success") = some DeploymentStatus.success ∧
    ((update_deployment_status [c8dep] "d8" "success" "" 9).2
      = UpdateOutcome.ok c8dep.status
          (applyStatusUpdate c8dep DeploymentStatus.success "" 9) ∧
    (applyStatusUpdate c8dep DeploymentStatus.success "" 9).completed_at
      = (if DeploymentStatus.success = DeploymentStatus.success ∨
            DeploymentStatus.success = DeploymentStatus.failed
         then some 9 else c8dep.completed_at) ∧
    (applyStatusUpdate c8dep DeploymentStatus.success "" 9).started_at
      = c8dep.started_at) :=
  ⟨by decide, by decide, C8_theorem [c8dep] "d8" "success" "" 9 c8dep
    DeploymentStatus.success (by decide) (by decide)⟩

/-! ## C9 — version diffing -/

/-- Version `1.0.0` of the spec's example: features `["A"]`. -/
def exV10 : Version := sampleVersion "1.0.0" ["A"] [] []

/-- Version `1.1.0` of the spec's example: features `["A", "B"]`. -/
def exV11 : Version := sampleVersion "1.1.0" ["A", "B"] [] []

/-- Version list of the environment used in the C9 example. -/
def exVersions : List Version := [exV10, exV11]

/-- C9: for every pair of existing versions the changelog is exactly the
set difference by string value equality — an entry is listed precisely
when it occurs in the `to` version and not in the `from` version, for
each of the three lists — and on the spec's concrete example
(features `["A"]` against `["A", "B"]`) the result is `new_features = ["B"]`
with empty bug-fix and breaking-change diffs. -/
theorem C9_theorem :
    (∀ (versions : List Version) (ver1 ver2 : String) (v1 v2 : Version)
        (c : ChangeLog),
      versions.find? (fun v => v.version == ver1) = some v1 →
      versions.find? (fun v => v.version == ver2) = some v2 →
      compare_versions versions ver1 ver2 = CompareOutcome.ok c →
      (∀ x, x ∈ c.features ↔ x ∈ v2.features ∧ x ∉ v1.features) ∧
      (∀ x, x ∈ c.bug_fixes ↔ x ∈ v2.bug_fixes ∧ x ∉ v1.bug_fixes) ∧
      (∀ x, x ∈ c.breaking_changes ↔
        x ∈ v2.breaking_changes ∧ x ∉ v1.breaking_changes)) ∧
    (∃ c, compare_versions exVersions "1.0.0" "1.1.0" = CompareOutcome.ok c ∧
      c.features = ["B"] ∧ c.bug_fixes = [] ∧ c.breaking_changes = []) := by
  constructor
  · intro versions ver1 ver2 v1 v2 c h1 h2 hc
    simp only [compare_versions, h1, h2] at hc
    cases hc
    exact ⟨fun x => mem_pySetDiff, fun x => mem_pySetDiff, fun x => mem_pySetDiff⟩
  · refine ⟨_, rfl, ?_, ?_, ?_⟩ <;> decide

/-- C9 witness: the general part of the theorem applied to the concrete
example versions. -/
theorem C9_witness :
    exVersions.find? (fun v => v.version == "1.0.0") = some exV10 ∧
    exVersions.find? (fun v => v.version == "1.1.0") = some exV11 ∧
    (∃ c, compare_versions exVersions "1.0.0" "1.1.0" = CompareOutcome.ok c ∧
      (∀ x, x ∈ c.features ↔ x ∈ exV11.features ∧ x ∉ exV10.features) ∧
      (∀ x, x ∈ c.bug_fixes ↔ x ∈ exV11.bug_fixes ∧ x ∉ exV10.bug_fixes) ∧
      (∀ x, x ∈ c.breaking_changes ↔
        x ∈ exV11.breaking_changes ∧ x ∉ exV10.breaking_changes)) :=
  ⟨by decide, by decide,
    ⟨_, rfl, C9_theorem.1 exVersions "1.0.0" "1.1.0" exV10 exV11 _
      (by decide) (by decide) rfl⟩⟩

/-! ## C10 — deployment history -/

theorem historyCore_spec (db : List Deployment) (envFilter : Option Env)
    (limit : Nat) :
    (historyCore db envFilter limit).deployments.length ≤ limit ∧
    (historyCore db envFilter limit).deployments.Pairwise
      (fun a b => b.deployed_at ≤ a.deployed_at) ∧
    (historyCore db envFilter limit).total_deployments
      = (historyFiltered db envFilter).length := by
  refine ⟨?_, ?_, ?_⟩
  · show ((sortByDeployedAtDesc (historyFiltered db envFilter)).take limit).length
      ≤ limit
    rw [List.length_take]
    exact min_le_left _ _
  · have hs : List.Sorted laterFirst
        (sortByDeployedAtDesc (historyFiltered db envFilter)) :=
      List.sorted_insertionSort laterFirst _
    exact List.Pairwise.sublist (List.take_sublist _ _) hs
  · show (sortByDeployedAtDesc (historyFiltered db envFilter)).length
      = (historyFiltered db envFilter).length
    exact (List.perm_insertionSort laterFirst _).length_eq

/-- C10: a history query returns at most `limit` rows, sorted by
`deployed_at` descending; the reported total is the number of ALL rows
matching the environment filter, independent of `limit`; and the ledger
state is returned unchanged. -/
theorem C10_theorem (db : List Deployment) (environment : Option String)
    (limit : Nat) (r : HistoryResult)
    (h : (get_deployment_history db environment limit).2 = HistoryOutcome.ok r) :
    (get_deployment_history db environment limit).1 = db ∧
    r.deployments.length ≤ limit ∧
    r.deployments.Pairwise (fun a b => b.deployed_at ≤ a.deployed_at) ∧
    (match environment with
     | none => r.total_deployments = db.length
     | some s => ∃ e, envOfString (pyLower s) = some e ∧
         r.total_deployments
           = (db.filter fun d => decide (d.environment = e)).length) := by
  cases environment with
  | none =>
    have heq : get_deployment_history db none limit
        = (db, HistoryOutcome.ok (historyCore db none limit)) := rfl
    rw [heq] at h
    cases h
    obtain ⟨h1, h2, h3⟩ := historyCore_spec db none limit
    exact ⟨rfl, h1, h2, h3⟩
  | some s =>
    have heq : get_deployment_history db (some s) limit
        = (match envOfString (pyLower s) with
           | none => (db, HistoryOutcome.invalidEnvironment)
           | some e => (db, HistoryOutcome.ok (historyCore db (some e) limit))) :=
      rfl
    cases he : envOfString (pyLower s) with
    | none =>
      rw [heq, he] at h
      cases h
    | some e =>
      rw [heq, he] at h
      cases h
      obtain ⟨h1, h2, h3⟩ := historyCore_spec db (some e) limit
      refine ⟨?_, h1, h2, ⟨e, he, h3⟩⟩
      rw [heq, he]

/-- Three `dev` deployments used by the C10 witness. -/
def c10Db : List Deployment :=
  [sampleDeployment "h1" Env.dev DeploymentStatus.success 4,
   sampleDeployment "h2" Env.dev DeploymentStatus.failed 9,
   sampleDeployment "h3" Env.dev DeploymentStatus.success 6]

/-- C10 witness: the theorem applied to a concrete three-row ledger with
filter `dev` and limit 2. -/
theorem C10_witness :
    (get_deployment_history c10Db (some "dev") 2).2
      = HistoryOutcome.ok (historyCore c10Db (some Env.dev) 2) ∧
    ((get_deployment_history c10Db (some "dev") 2).1 = c10Db ∧
    (historyCore c10Db (some Env.dev) 2).deployments.length ≤ 2 ∧
    (historyCore c10Db (some Env.dev) 2).deployments.Pairwise
      (fun a b => b.deployed_at ≤ a.deployed_at) ∧
    (∃ e, envOfString (pyLower "dev") = some e ∧
      (historyCore c10Db (some Env.dev) 2).total_deployments
        = (c10Db.filter fun d => decide (d.environment = e)).length)) :=
  ⟨by decide,
   C10_theorem c10Db (some "dev") 2 (historyCore c10Db (some Env.dev) 2)
     (by decide)⟩

end DeployTrack
